import Mathlib

/-!
Shallow embedding of the Atmos Energy Home Assistant integration
(custom_components/atmos/sensor.py): the daily-usage coordinator
`AtmosDailyCoordinator` (dedupe + accumulation in `async_request_refresh`),
the CSV-row field extraction performed at the end of `_fetch_data`, the
`_get_next_4am` scheduler helper, and the cumulative sensor's state
restoration in `AtmosEnergyCumulativeUsageSensor.async_added_to_hass`.

Modelling conventions:
* Python floats are modelled as rationals (`Rat`).  The model of
  `float(<string>)` covers the standard decimal grammar (optional sign,
  digits, optional decimal point, optional exponent); the special
  literals inf/infinity/nan and underscore digit grouping that CPython
  also accepts are outside the model (no claim here depends on them).
* Local wall-clock time is modelled as microseconds on a uniform
  timeline with fixed 24-hour days (no DST transitions), matching the
  resolution of Python `datetime`.
* The network fetch `_fetch_data` is modelled by its interface: a
  refresh receives the outcome of the fetch — a raised transport error,
  `None` (no CSV rows), or the parsed last CSV row given as a list of
  header/value cells (`csv.DictReader` yields string cells; lookup is
  `dict.get(key, "")`, i.e. exact key match with `""` default).
-/

namespace Atmos

/-- The ASCII whitespace set stripped by Python `str.strip()`. -/
def isPySpace (c : Char) : Bool :=
  c = ' ' || c = '\t' || c = '\n' || c = '\r' || c = '\x0b' || c = '\x0c'

/-- Python `s.strip()`: drop leading and trailing whitespace. -/
def pyStrip (s : String) : String :=
  String.mk (((s.data.dropWhile isPySpace).reverse.dropWhile isPySpace).reverse)

/-- Python `s.replace(",", "")`: remove every comma. -/
def stripCommas (s : String) : String :=
  String.mk (s.data.filter (fun c => c != ','))

/-- Value of a string of decimal digits. -/
def digitsToNat (ds : List Char) : Nat :=
  ds.foldl (fun n c => 10 * n + (c.toNat - 48)) 0

/-- Split a character list into its leading run of decimal digits and the rest. -/
def splitDigits (cs : List Char) : List Char × List Char :=
  (cs.takeWhile Char.isDigit, cs.dropWhile Char.isDigit)

/-- Decomposed value of a float literal: sign, mantissa digits read as an
integer, number of digits after the decimal point, exponent sign and
magnitude.  The denoted value is
`±mantissa / 10 ^ fracDigits * 10 ^ ±exponent`. -/
structure FloatParts where
  neg : Bool
  mantissa : Nat
  fracDigits : Nat
  expNeg : Bool
  exponent : Nat
  deriving DecidableEq

/-- After the mantissa of a float literal, parse an optional exponent part
and require that the input is exhausted (CPython `float` grammar). -/
def finishExponent (cs : List Char) : Option (Bool × Nat) :=
  match cs with
  | [] => some (false, 0)
  | c :: r =>
    if c = 'e' || c = 'E' then
      let (eneg, r1) : Bool × List Char :=
        match r with
        | '+' :: rr => (false, rr)
        | '-' :: rr => (true, rr)
        | _ => (false, r)
      let (ed, r2) := splitDigits r1
      if ed.isEmpty || !r2.isEmpty then none
      else some (eneg, digitsToNat ed)
    else none

/-- Grammar of Python `float(<string>)` on an already-stripped string:
optional sign, then either `digits [. digits] [exp]` or `. digits [exp]`.
Returns `none` where CPython raises `ValueError`. -/
def pyParse? (s : String) : Option FloatParts :=
  let cs := s.data
  let (neg, cs1) : Bool × List Char :=
    match cs with
    | '+' :: r => (false, r)
    | '-' :: r => (true, r)
    | _ => (false, cs)
  let (ip, rest1) := splitDigits cs1
  match rest1 with
  | '.' :: rest2 =>
    let (fp, rest3) := splitDigits rest2
    if ip.isEmpty && fp.isEmpty then none
    else
      match finishExponent rest3 with
      | some (eneg, e) => some ⟨neg, digitsToNat (ip ++ fp), fp.length, eneg, e⟩
      | none => none
  | _ =>
    if ip.isEmpty then none
    else
      match finishExponent rest1 with
      | some (eneg, e) => some ⟨neg, digitsToNat ip, 0, eneg, e⟩
      | none => none

/-- The rational value denoted by parsed float components. -/
def partsToRat (p : FloatParts) : Rat :=
  (if p.neg then -1 else 1) * (p.mantissa : Rat) / 10 ^ p.fracDigits *
    (if p.expNeg then ((10 : Rat) ^ p.exponent)⁻¹ else (10 : Rat) ^ p.exponent)

/-- Model of Python `float(<string>)` on an already-stripped string. -/
def pyFloat? (s : String) : Option Rat :=
  (pyParse? s).map partsToRat

/-- The normalized record built at the end of `_fetch_data`: one field per
CSV column, each the stripped cell value (or `""` when the column is
absent). -/
structure Reading where
  weather_date : String
  consumption : String
  temp_area : String
  units : String
  avg_temp : String
  high_temp : String
  low_temp : String
  billing_month : String
  billing_period : String
  deriving DecidableEq

/-- A raw CSV row as produced by `csv.DictReader`: header/value cells. -/
def RawRow : Type := List (String × String)

/-- `row.get(key, "")`: the value of the first cell whose header equals
`key` exactly, else `""`. -/
def rowGet (row : List (String × String)) (key : String) : String :=
  match row.find? (fun cell => cell.1 == key) with
  | some cell => cell.2
  | none => ""

/-- The dictionary returned by `_fetch_data` (lines building the result
from `latest_row`): exact-key lookup with `""` default, then `strip()`. -/
def normalizeRow (row : List (String × String)) : Reading where
  weather_date := pyStrip (rowGet row "Weather Date")
  consumption := pyStrip (rowGet row "Consumption")
  temp_area := pyStrip (rowGet row "Temp Area")
  units := pyStrip (rowGet row "Units")
  avg_temp := pyStrip (rowGet row "Avg Temp")
  high_temp := pyStrip (rowGet row "High Temp")
  low_temp := pyStrip (rowGet row "Low Temp")
  billing_month := pyStrip (rowGet row "Billing Month")
  billing_period := pyStrip (rowGet row "Billing Period")

/-- Mutable state of `AtmosDailyCoordinator`: `self.data`,
`self.current_daily_usage`, `self.cumulative_usage`. -/
structure CoordState where
  data : Option Reading
  current_daily_usage : Rat
  cumulative_usage : Rat
  deriving DecidableEq

/-- Coordinator state right after `__init__`: no data, both usages 0.0. -/
def initState : CoordState :=
  { data := none, current_daily_usage := 0, cumulative_usage := 0 }

/-- Outcome of `self.hass.async_add_executor_job(self._fetch_data)`:
an exception from the transport layer (`raise_for_status` / network
failure), or `None` (CSV had no rows), or the parsed last row. -/
inductive FetchOutcome where
  | transportError : FetchOutcome
  | ok : Option (List (String × String)) → FetchOutcome
  deriving DecidableEq

/-- How `async_request_refresh` returns: normally, or by raising
`UpdateFailed` (the spec's `RefreshFailed`). -/
inductive RefreshResult where
  | done : RefreshResult
  | refreshFailed : RefreshResult
  deriving DecidableEq

/-- The consumption coercion in `async_request_refresh`: empty value
defaults to 0.0, otherwise `float(str(v).replace(",", "").strip())`
with `ValueError` caught and replaced by 0.0. -/
def consumptionToFloat (raw : String) : Rat :=
  if raw = "" then 0
  else (pyFloat? (pyStrip (stripCommas raw))).getD 0

/-- The dedupe guard `if old_date and old_date == new_date` — Python
truthiness of `old_date` means: present and a non-empty string. -/
def sameDateGuard (st : CoordState) (newDate : String) : Bool :=
  match st.data with
  | some r => decide (r.weather_date ≠ "") && decide (r.weather_date = newDate)
  | none => false

/-- One call of `AtmosDailyCoordinator.async_request_refresh`, as a
function of the current state and the fetch outcome. -/
def refresh (st : CoordState) (fetch : FetchOutcome) : CoordState × RefreshResult :=
  match fetch with
  | .transportError => (st, .refreshFailed)
  | .ok none => (st, .done)
  | .ok (some row) =>
    let newData := normalizeRow row
    if sameDateGuard st newData.weather_date then (st, .done)
    else
      let usage := consumptionToFloat newData.consumption
      ({ data := some newData,
         current_daily_usage := usage,
         cumulative_usage := st.cumulative_usage + usage }, .done)

/-- The consumption value a given raw row contributes when accepted. -/
def rowUsage (row : List (String × String)) : Rat :=
  consumptionToFloat (normalizeRow row).consumption

/-- Run a sequence of refreshes whose fetches each return a row. -/
def runRefreshes (st : CoordState) (rows : List (List (String × String))) : CoordState :=
  rows.foldl (fun s row => (refresh s (.ok (some row))).1) st

/-- Every refresh in the sequence passes the dedupe guard (is accepted). -/
def allAccepted : CoordState → List (List (String × String)) → Prop
  | _, [] => True
  | st, row :: rows =>
    sameDateGuard st (normalizeRow row).weather_date = false ∧
      allAccepted (refresh st (.ok (some row))).1 rows

/-- `AtmosEnergyCumulativeUsageSensor.async_added_to_hass`: restore the
persisted state string via `float(...)`, assigning (not adding) to
`cumulative_usage`; a `ValueError` leaves the state unchanged.
(`float` itself strips surrounding whitespace.) -/
def restoreCumulative (persisted : String) (st : CoordState) : CoordState :=
  match pyFloat? (pyStrip persisted) with
  | some v => { st with cumulative_usage := v }
  | none => st

/-- Microseconds per hour (Python `datetime` resolution). -/
def microsecondsPerHour : Nat := 3600000000

/-- Microseconds per day. -/
def microsecondsPerDay : Nat := 86400000000

/-- Time-of-day offset of 04:00:00.000000. -/
def fourAMOffset : Nat := 4 * microsecondsPerHour

/-- `now.replace(hour=4, minute=0, second=0, microsecond=0)`: same
calendar day, time-of-day forced to 04:00. -/
def replaceWith4am (now : Nat) : Nat :=
  now / microsecondsPerDay * microsecondsPerDay + fourAMOffset

/-- `_get_next_4am`: today's 04:00, pushed to tomorrow when `now >= target`. -/
def get_next_4am (now : Nat) : Nat :=
  let target := replaceWith4am now
  if target ≤ now then target + microsecondsPerDay else target

/-! Concrete rows and states used to exercise the model. -/

/-- The spec's first example row. -/
def rowJan1 : List (String × String) :=
  [("Weather Date", "2024-01-01"), ("Consumption", "12.5")]

/-- The spec's third example row (comma inside the consumption value). -/
def rowJan2 : List (String × String) :=
  [("Weather Date", "2024-01-02"), ("Consumption", "8,0")]

/-- A row whose consumption parses to a negative float. -/
def rowNeg : List (String × String) :=
  [("Weather Date", "2024-01-01"), ("Consumption", "-1")]

/-- A row with no "Weather Date" column at all. -/
def rowNoDate : List (String × String) :=
  [("Consumption", "5")]

/-- A row with a non-numeric consumption value. -/
def rowBad : List (String × String) :=
  [("Weather Date", "2024-01-05"), ("Consumption", "abc")]

/-- The first example row with lower-case column headers. -/
def rowLower : List (String × String) :=
  [("weather date", "2024-01-01"), ("consumption", "12.5")]

/-- A row used for the restoration example. -/
def rowJan3 : List (String × String) :=
  [("Weather Date", "2024-01-03"), ("Consumption", "3.0")]

/-- State after the spec scenario's first refresh. -/
def scenState1 : CoordState := (refresh initState (.ok (some rowJan1))).1

/-- State after the spec scenario's second refresh (same row again). -/
def scenState2 : CoordState := (refresh scenState1 (.ok (some rowJan1))).1

/-- State after the spec scenario's third refresh. -/
def scenState3 : CoordState := (refresh scenState2 (.ok (some rowJan2))).1

/-- A state whose accepted reading has an empty date (reachable: one
refresh of a row without a "Weather Date" column). -/
def stEmpty : CoordState := (refresh initState (.ok (some rowNoDate))).1

/-! Helper lemmas about the coordinator. -/

/-- A refresh whose row passes the dedupe guard installs the new reading
and adds its usage to the running total. -/
lemma refresh_accepted (st : CoordState) (row : List (String × String))
    (h : sameDateGuard st (normalizeRow row).weather_date = false) :
    refresh st (.ok (some row)) =
      ({ data := some (normalizeRow row),
         current_daily_usage := rowUsage row,
         cumulative_usage := st.cumulative_usage + rowUsage row }, .done) := by
  simp [refresh, h, rowUsage]

/-- A refresh stopped by the dedupe guard returns with the state intact. -/
lemma refresh_deduped (st : CoordState) (row : List (String × String))
    (h : sameDateGuard st (normalizeRow row).weather_date = true) :
    refresh st (.ok (some row)) = (st, .done) := by
  simp [refresh, h]

/-- After any row-producing refresh, the stored reading's date equals the
fetched row's normalized date (whether the row was accepted or deduped). -/
lemma refresh_preserves_date (st : CoordState) (row : List (String × String)) :
    ∃ r, (refresh st (.ok (some row))).1.data = some r ∧
      r.weather_date = (normalizeRow row).weather_date := by
  cases hg : sameDateGuard st (normalizeRow row).weather_date with
  | false => exact ⟨normalizeRow row, by rw [refresh_accepted st row hg], rfl⟩
  | true =>
    rw [refresh_deduped st row hg]
    cases hd : st.data with
    | none => exact absurd hg (by simp [sameDateGuard, hd])
    | some r =>
      have hg' := hg
      simp only [sameDateGuard, hd, Bool.and_eq_true, decide_eq_true_eq] at hg'
      exact ⟨r, rfl, hg'.2⟩

/-- Running an all-accepted batch of refreshes adds up every row's usage. -/
lemma runRefreshes_cumulative (rows : List (List (String × String))) :
    ∀ st : CoordState, allAccepted st rows →
      (runRefreshes st rows).cumulative_usage
        = st.cumulative_usage + (rows.map rowUsage).sum := by
  induction rows with
  | nil => intro st _; simp [runRefreshes]
  | cons row rows ih =>
    intro st h
    obtain ⟨hacc, hrest⟩ := h
    have hstep : runRefreshes st (row :: rows)
        = runRefreshes (refresh st (.ok (some row))).1 rows := rfl
    rw [hstep, ih _ hrest, refresh_accepted st row hacc]
    simp [add_assoc]

/-- A refresh never decreases the running total when the row's usage is
non-negative. -/
lemma refresh_mono (st : CoordState) (row : List (String × String))
    (h : 0 ≤ rowUsage row) :
    st.cumulative_usage ≤ (refresh st (.ok (some row))).1.cumulative_usage := by
  cases hg : sameDateGuard st (normalizeRow row).weather_date with
  | true => rw [refresh_deduped st row hg]
  | false =>
    rw [refresh_accepted st row hg]
    exact le_add_of_nonneg_right h

/-- Evaluate the consumption coercion at a concrete parsable string. -/
lemma consumptionToFloat_eval (raw cleaned : String) (p : FloatParts) (v : Rat)
    (h0 : ¬ raw = "") (h1 : pyStrip (stripCommas raw) = cleaned)
    (h2 : pyParse? cleaned = some p) (h3 : partsToRat p = v) :
    consumptionToFloat raw = v := by
  rw [consumptionToFloat, if_neg h0, h1, pyFloat?, h2, Option.map_some',
    Option.getD_some, h3]

/-- The usage of the spec's first example row. -/
lemma rowUsage_jan1 : rowUsage rowJan1 = 12.5 := by
  rw [rowUsage, show (normalizeRow rowJan1).consumption = "12.5" from by decide]
  exact consumptionToFloat_eval _ "12.5" ⟨false, 125, 1, false, 0⟩ _
    (by decide) (by decide) (by decide) (by norm_num [partsToRat])

/-- The usage of the spec's third example row: the comma is stripped as a
thousands separator, so `"8,0"` parses as `80`. -/
lemma rowUsage_jan2 : rowUsage rowJan2 = 80 := by
  rw [rowUsage, show (normalizeRow rowJan2).consumption = "8,0" from by decide]
  exact consumptionToFloat_eval _ "80" ⟨false, 80, 0, false, 0⟩ _
    (by decide) (by decide) (by decide) (by norm_num [partsToRat])

/-- The usage of the negative-consumption row. -/
lemma rowUsage_neg : rowUsage rowNeg = -1 := by
  rw [rowUsage, show (normalizeRow rowNeg).consumption = "-1" from by decide]
  exact consumptionToFloat_eval _ "-1" ⟨true, 1, 0, false, 0⟩ _
    (by decide) (by decide) (by decide) (by norm_num [partsToRat])

/-- The usage of the dateless row. -/
lemma rowUsage_noDate : rowUsage rowNoDate = 5 := by
  rw [rowUsage, show (normalizeRow rowNoDate).consumption = "5" from by decide]
  exact consumptionToFloat_eval _ "5" ⟨false, 5, 0, false, 0⟩ _
    (by decide) (by decide) (by decide) (by norm_num [partsToRat])

/-- The usage of the restoration-example row. -/
lemma rowUsage_jan3 : rowUsage rowJan3 = 3 := by
  rw [rowUsage, show (normalizeRow rowJan3).consumption = "3.0" from by decide]
  exact consumptionToFloat_eval _ "3.0" ⟨false, 30, 1, false, 0⟩ _
    (by decide) (by decide) (by decide) (by norm_num [partsToRat])

/-- Explicit value of the scenario state after the first refresh. -/
lemma scenState1_eq :
    scenState1 = { data := some (normalizeRow rowJan1),
                   current_daily_usage := 12.5, cumulative_usage := 12.5 } := by
  rw [scenState1, refresh_accepted _ _ (by decide), rowUsage_jan1]
  norm_num [initState]

/-- The scenario's second refresh is deduped. -/
lemma scenState2_eq : scenState2 = scenState1 := by
  rw [scenState2, scenState1_eq, refresh_deduped _ _ (by decide)]

/-- Explicit value of the scenario state after the third refresh. -/
lemma scenState3_eq :
    scenState3 = { data := some (normalizeRow rowJan2),
                   current_daily_usage := 80, cumulative_usage := 92.5 } := by
  rw [scenState3, scenState2_eq, scenState1_eq, refresh_accepted _ _ (by decide),
    rowUsage_jan2]
  norm_num

/-- Explicit value of the empty-date state. -/
lemma stEmpty_eq :
    stEmpty = { data := some (normalizeRow rowNoDate),
                current_daily_usage := 5, cumulative_usage := 5 } := by
  rw [stEmpty, refresh_accepted _ _ (by decide), rowUsage_noDate]
  norm_num [initState]

/-! Claim theorems. -/

/-- C1 (counterexample): the dedupe rule does not fire when the last
accepted reading's date is the empty string.  After one refresh of a row
with no "Weather Date" column, a second refresh fetching the very same
row (normalizing to the same — empty — date) mutates the state again:
`cumulativeUsage` changes, contradicting "returns with the state
unchanged". -/
theorem dedupe_empty_date_cex :
    (refresh initState (.ok (some rowNoDate))).1.data = some (normalizeRow rowNoDate) ∧
    (refresh (refresh initState (.ok (some rowNoDate))).1 (.ok (some rowNoDate))).1.cumulative_usage
      ≠ (refresh initState (.ok (some rowNoDate))).1.cumulative_usage := by
  have h1 : (refresh initState (.ok (some rowNoDate))).1 = stEmpty := rfl
  constructor
  · rw [h1, stEmpty_eq]
  · rw [h1, stEmpty_eq, refresh_accepted _ _ (by decide), rowUsage_noDate]
    norm_num

/-- C1 (amended): if the last accepted reading exists and its date is
non-empty, a refresh fetching a row that normalizes to that same date
discards the reading and returns with the state unchanged; in
particular, after two consecutive refreshes whose rows normalize to the
same non-empty date, `cumulativeUsage` equals its value after the first
refresh. -/
theorem dedupe_nonempty_same_date_skips :
    (∀ (st : CoordState) (row : List (String × String)) (r : Reading),
        st.data = some r → r.weather_date ≠ "" →
        (normalizeRow row).weather_date = r.weather_date →
        refresh st (.ok (some row)) = (st, .done))
    ∧ (∀ (st : CoordState) (row1 row2 : List (String × String)),
        (normalizeRow row1).weather_date ≠ "" →
        (normalizeRow row2).weather_date = (normalizeRow row1).weather_date →
        (refresh (refresh st (.ok (some row1))).1 (.ok (some row2))).1.cumulative_usage
          = (refresh st (.ok (some row1))).1.cumulative_usage) := by
  have skip : ∀ (st : CoordState) (row : List (String × String)) (r : Reading),
      st.data = some r → r.weather_date ≠ "" →
      (normalizeRow row).weather_date = r.weather_date →
      refresh st (.ok (some row)) = (st, .done) := by
    intro st row r hd hne heq
    refine refresh_deduped st row ?_
    simp only [sameDateGuard, hd, Bool.and_eq_true, decide_eq_true_eq]
    exact ⟨hne, heq.symm⟩
  refine ⟨skip, ?_⟩
  intro st row1 row2 h1 h2
  obtain ⟨r1, hd1, hwd1⟩ := refresh_preserves_date st row1
  rw [skip _ row2 r1 hd1 (by rw [hwd1]; exact h1) (by rw [hwd1]; exact h2)]

/-- C1 (witness): a state holding the first example reading dedupes a
refresh of the same row. -/
theorem dedupe_nonempty_same_date_skips_witness :
    refresh { data := some (normalizeRow rowJan1),
              current_daily_usage := 12.5, cumulative_usage := 12.5 }
        (.ok (some rowJan1))
      = ({ data := some (normalizeRow rowJan1),
           current_daily_usage := 12.5, cumulative_usage := 12.5 }, .done) :=
  dedupe_nonempty_same_date_skips.1 _ rowJan1 (normalizeRow rowJan1)
    rfl (by decide) rfl

/-- C2 (counterexample): one successful, non-duplicate refresh whose
consumption parses to `-1` makes `cumulativeUsage` decrease, so
`cumulativeUsage` is not non-decreasing for every such sequence. -/
theorem cumulative_monotone_cex :
    (refresh initState (.ok (some rowNeg))).2 = .done ∧
    (refresh initState (.ok (some rowNeg))).1.data = some (normalizeRow rowNeg) ∧
    (refresh initState (.ok (some rowNeg))).1.cumulative_usage
      < initState.cumulative_usage := by
  rw [refresh_accepted _ _ (by decide), rowUsage_neg]
  refine ⟨rfl, rfl, ?_⟩
  norm_num [initState]

/-- C2 (amended): after any all-accepted sequence of refreshes with rows
`rows`, `cumulativeUsage` equals its initial value plus the sum of the
rows' (parsed) consumption values; and a refresh never decreases
`cumulativeUsage` provided the fetched row's consumption value is
non-negative (the code does not enforce non-negativity, see the
counterexample). -/
theorem cumulative_sum_and_mono :
    (∀ (st : CoordState) (rows : List (List (String × String))),
        allAccepted st rows →
        (runRefreshes st rows).cumulative_usage
          = st.cumulative_usage + (rows.map rowUsage).sum)
    ∧ (∀ (st : CoordState) (row : List (String × String)),
        0 ≤ rowUsage row →
        st.cumulative_usage ≤ (refresh st (.ok (some row))).1.cumulative_usage) :=
  ⟨fun st rows h => runRefreshes_cumulative rows st h, refresh_mono⟩

/-- C2 (witness): the two distinct-date example rows accumulate to the sum
of their usages. -/
theorem cumulative_sum_and_mono_witness :
    (runRefreshes initState [rowJan1, rowJan2]).cumulative_usage
      = initState.cumulative_usage + ([rowJan1, rowJan2].map rowUsage).sum :=
  cumulative_sum_and_mono.1 initState [rowJan1, rowJan2]
    ⟨by decide, by decide, trivial⟩

/-- C3 (counterexample): normalization of a row whose consumption cell is
`"-1"` produces the negative value `-1`, so `consumptionUnits` is not
always non-negative. -/
theorem consumption_nonneg_cex :
    rowUsage rowNeg = -1 ∧ rowUsage rowNeg < 0 := by
  rw [rowUsage_neg]
  norm_num

/-- C3 (amended): for every raw row, the consumption value produced by
normalization either is exactly the float parsed from the comma- and
whitespace-stripped raw string (with no further restriction — it may be
negative), or, when that string does not parse, is the fallback `0.0`;
normalization never fails. -/
theorem consumption_parse_total :
    ∀ row : List (String × String),
      (∃ v, pyFloat? (pyStrip (stripCommas ((normalizeRow row).consumption))) = some v
          ∧ rowUsage row = v)
      ∨ (pyFloat? (pyStrip (stripCommas ((normalizeRow row).consumption))) = none
          ∧ rowUsage row = 0) := by
  intro row
  by_cases he : (normalizeRow row).consumption = ""
  · right
    constructor
    · rw [he]; decide
    · rw [rowUsage, consumptionToFloat, if_pos he]
  · cases hp : pyFloat? (pyStrip (stripCommas ((normalizeRow row).consumption))) with
    | none =>
      right
      exact ⟨rfl, by rw [rowUsage, consumptionToFloat, if_neg he, hp, Option.getD_none]⟩
    | some v =>
      left
      exact ⟨v, rfl, by rw [rowUsage, consumptionToFloat, if_neg he, hp, Option.getD_some]⟩

/-- C4: a refresh that passes the dedupe guard but whose consumption cell
is empty or non-numeric still transitions state — the new reading is
installed, `currentDailyUsage` becomes `0.0`, `cumulativeUsage` keeps its
value — and returns normally rather than failing. -/
theorem refresh_fallback_zero :
    ∀ (st : CoordState) (row : List (String × String)),
      sameDateGuard st (normalizeRow row).weather_date = false →
      ((normalizeRow row).consumption = "" ∨
        pyFloat? (pyStrip (stripCommas ((normalizeRow row).consumption))) = none) →
      refresh st (.ok (some row)) =
        ({ data := some (normalizeRow row), current_daily_usage := 0,
           cumulative_usage := st.cumulative_usage }, .done) := by
  intro st row hg hc
  have hz : rowUsage row = 0 := by
    rw [rowUsage, consumptionToFloat]
    by_cases he : (normalizeRow row).consumption = ""
    · rw [if_pos he]
    · rw [if_neg he]
      rcases hc with hc | hc
      · exact absurd hc he
      · rw [hc, Option.getD_none]
  rw [refresh_accepted st row hg, hz, add_zero]

/-- C4 (witness): refreshing an empty state with a row whose consumption
is `"abc"` installs the reading with usage 0 and does not fail. -/
theorem refresh_fallback_zero_witness :
    refresh initState (.ok (some rowBad)) =
      ({ data := some (normalizeRow rowBad), current_daily_usage := 0,
         cumulative_usage := initState.cumulative_usage }, .done) :=
  refresh_fallback_zero initState rowBad (by decide) (Or.inr (by decide))

/-- C5: a fetch that fails with a transport error makes the refresh
surface `RefreshFailed` with the accumulator state completely unchanged;
and the state can only change when the fetch succeeded and produced a
row. -/
theorem transport_error_no_mutation :
    (∀ st : CoordState, refresh st .transportError = (st, .refreshFailed))
    ∧ (∀ (st : CoordState) (out : FetchOutcome),
        (refresh st out).1 ≠ st → ∃ row, out = FetchOutcome.ok (some row)) := by
  refine ⟨fun st => rfl, ?_⟩
  intro st out h
  cases out with
  | transportError => exact absurd rfl h
  | ok o =>
    cases o with
    | none => exact absurd rfl h
    | some row => exact ⟨row, rfl⟩

/-- C5 (witness): a successful first-example refresh does change the
state, and indeed its fetch produced a row. -/
theorem transport_error_no_mutation_witness :
    ∃ row, FetchOutcome.ok (some rowJan1) = FetchOutcome.ok (some row) :=
  transport_error_no_mutation.2 initState (.ok (some rowJan1)) (by
    rw [refresh_accepted _ _ (by decide)]
    simp [initState])

/-- C6 (counterexample): in the three-step scenario the third refresh
does not yield `currentDailyUsage = 8` and `cumulativeUsage = 20.5`:
the comma of `"8,0"` is stripped as a thousands separator, so the row
parses as `80`. -/
theorem end_to_end_cex :
    scenState3.current_daily_usage ≠ 8 ∧ scenState3.cumulative_usage ≠ 20.5 := by
  rw [scenState3_eq]
  norm_num

/-- C6 (amended): starting uninitialized, the first refresh of
`{date: 2024-01-01, consumption: "12.5"}` yields usage 12.5/12.5, the
second refresh of the same row leaves the state unchanged, and the third
refresh of `{date: 2024-01-02, consumption: "8,0"}` yields
`currentDailyUsage = 80` and `cumulativeUsage = 92.5` (comma stripped as
a thousands separator). -/
theorem end_to_end_amended :
    scenState1.current_daily_usage = 12.5 ∧ scenState1.cumulative_usage = 12.5 ∧
    scenState2 = scenState1 ∧
    scenState3.current_daily_usage = 80 ∧ scenState3.cumulative_usage = 92.5 := by
  rw [scenState1_eq, scenState2_eq, scenState3_eq]
  norm_num [scenState1_eq]

/-- C7 (counterexample): a row whose headers differ from the canonical
ones only in case normalizes differently from the canonical row — the
lookup `latest_row.get("Weather Date", "")` is exact, so the lower-case
row's date falls back to `""`. -/
theorem header_exact_match_cex :
    (normalizeRow rowLower).weather_date = "" ∧
    (normalizeRow rowJan1).weather_date = "2024-01-01" ∧
    normalizeRow rowLower ≠ normalizeRow rowJan1 := by
  decide

/-- C7 (amended): field-name matching is exact, not case- or
spacing-insensitive: whenever no cell's header is exactly
`"Weather Date"`, the normalized date is the empty-string fallback. -/
theorem header_no_match_empty :
    ∀ row : List (String × String),
      (∀ cell ∈ row, cell.1 ≠ "Weather Date") →
      (normalizeRow row).weather_date = "" := by
  intro row h
  have hf : row.find? (fun cell => cell.1 == "Weather Date") = none := by
    rw [List.find?_eq_none]
    intro x hx
    simpa using h x hx
  show pyStrip (rowGet row "Weather Date") = ""
  rw [rowGet, hf]
  decide

/-- C7 (witness): the lower-case-header example row normalizes to an
empty date. -/
theorem header_no_match_empty_witness :
    (normalizeRow rowLower).weather_date = "" :=
  header_no_match_empty rowLower (by decide)

/-- C8: `_get_next_4am` returns the nearest occurrence of 04:00 local
time strictly after `now` (time measured in microseconds on a uniform
local timeline): it is after `now`, it is at 04:00, and no other
occurrence of 04:00 after `now` is earlier. -/
theorem get_next_4am_correct :
    ∀ now : Nat,
      now < get_next_4am now ∧
      get_next_4am now % microsecondsPerDay = fourAMOffset ∧
      ∀ s : Nat, now < s → s % microsecondsPerDay = fourAMOffset →
        get_next_4am now ≤ s := by
  intro now
  refine ⟨?_, ?_, ?_⟩
  · simp only [get_next_4am, replaceWith4am, microsecondsPerDay, fourAMOffset,
      microsecondsPerHour]
    split <;> omega
  · simp only [get_next_4am, replaceWith4am, microsecondsPerDay, fourAMOffset,
      microsecondsPerHour]
    split <;> omega
  · intro s h1 h2
    simp only [microsecondsPerDay, fourAMOffset, microsecondsPerHour] at h2
    simp only [get_next_4am, replaceWith4am, microsecondsPerDay, fourAMOffset,
      microsecondsPerHour]
    split <;> omega

/-- C8 (witness): from 05:00 the next occurrence is 04:00 tomorrow
(at most 100800000000 µs = 28 h), and from 03:00 it is 04:00 today
(at most 14400000000 µs = 4 h); both bounds are met exactly by the
minimality part of the theorem. -/
theorem get_next_4am_correct_witness :
    get_next_4am (5 * 3600000000) ≤ 100800000000 ∧
    get_next_4am (3 * 3600000000) ≤ 14400000000 :=
  ⟨(get_next_4am_correct (5 * 3600000000)).2.2 100800000000 (by norm_num)
      (by norm_num [microsecondsPerDay, fourAMOffset, microsecondsPerHour]),
   (get_next_4am_correct (3 * 3600000000)).2.2 14400000000 (by norm_num)
      (by norm_num [microsecondsPerDay, fourAMOffset, microsecondsPerHour])⟩

/-- C9: seeding `cumulativeUsage` from a persisted string that parses to
`r`, before any refresh, makes one row-producing refresh end with
`cumulativeUsage = r + v` where `v` is the row's parsed consumption; and
restoration assigns rather than adds — performed on any state, it
replaces `cumulativeUsage` with the restored value. -/
theorem restore_then_refresh :
    (∀ (s : String) (r : Rat) (row : List (String × String)),
        pyFloat? (pyStrip s) = some r →
        (refresh (restoreCumulative s initState) (.ok (some row))).1.cumulative_usage
          = r + rowUsage row)
    ∧ (∀ (s : String) (r : Rat) (st : CoordState),
        pyFloat? (pyStrip s) = some r →
        (restoreCumulative s st).cumulative_usage = r) := by
  constructor
  · intro s r row h
    have hrest : restoreCumulative s initState =
        { data := none, current_daily_usage := 0, cumulative_usage := r } := by
      simp [restoreCumulative, h, initState]
    rw [hrest, refresh_accepted _ _ (by simp [sameDateGuard])]
  · intro s r st h
    simp [restoreCumulative, h]

/-- C9 (witness): seeding `42.5` then refreshing with a `3.0` reading
yields `45.5`. -/
theorem restore_then_refresh_witness :
    (refresh (restoreCumulative "42.5" initState) (.ok (some rowJan3))).1.cumulative_usage
      = 45.5 := by
  rw [restore_then_refresh.1 "42.5" 42.5 rowJan3 (by
    rw [show pyStrip "42.5" = "42.5" from by decide, pyFloat?,
      show pyParse? "42.5" = some ⟨false, 425, 1, false, 0⟩ from by decide,
      Option.map_some']
    norm_num [partsToRat]), rowUsage_jan3]
  norm_num

/-- C10: the dedupe guard tests truthiness of the old date before
comparing, so when the last accepted reading's date is the empty string,
a refresh whose row also normalizes to an empty date is accepted again:
the new reading is installed and its consumption is added to
`cumulativeUsage` a second time. -/
theorem empty_date_accepted_again :
    ∀ (st : CoordState) (r : Reading) (row : List (String × String)),
      st.data = some r → r.weather_date = "" →
      (normalizeRow row).weather_date = "" →
      refresh st (.ok (some row)) =
        ({ data := some (normalizeRow row), current_daily_usage := rowUsage row,
           cumulative_usage := st.cumulative_usage + rowUsage row }, .done) := by
  intro st r row hd hwd _
  refine refresh_accepted st row ?_
  simp [sameDateGuard, hd, hwd]

/-- C10 (witness): after accepting the dateless row once, refreshing with
the same dateless row adds its usage again. -/
theorem empty_date_accepted_again_witness :
    refresh stEmpty (.ok (some rowNoDate)) =
      ({ data := some (normalizeRow rowNoDate),
         current_daily_usage := rowUsage rowNoDate,
         cumulative_usage := stEmpty.cumulative_usage + rowUsage rowNoDate }, .done) :=
  empty_date_accepted_again stEmpty (normalizeRow rowNoDate) rowNoDate
    (by decide) (by decide) (by decide)

end Atmos
